import Mathlib

/-!
Verification of the VerteilteSystemePE task-distribution system.

The Python sources (dispatcher, nameservice, worker, shared protocol) are
shallowly embedded below: JSON values become an inductive type, Python dicts
become association lists, wall-clock times become rationals, and each UDP
request handler becomes a pure state-transformer.  Network receives that the
code performs are modelled by explicit oracle arguments (a list of the
outcomes successive receive attempts would produce, or a lookup function).
-/

namespace VSys

/-- JSON values, the data carried by every message (`json.dumps`/`json.loads`
round-trips exactly these).  Numbers are modelled as rationals: Python ints
are exact and the float values appearing in this system are small decimals. -/
inductive Json where
  | null : Json
  | bool (b : Bool) : Json
  | num (q : ℚ) : Json
  | str (s : String) : Json
  | arr (l : List Json) : Json
  | obj (m : List (String × Json)) : Json
deriving Repr

/-- Association-list lookup, modelling Python `dict.get` /`dict[k]` reads
(first matching key; our insert keeps keys unique). -/
def lookupKey {κ : Type} {α : Type} [DecidableEq κ] : List (κ × α) → κ → Option α
  | [], _ => none
  | (k', v) :: rest, k => if k' = k then some v else lookupKey rest k

/-- Association-list insert-or-replace, modelling Python `dict[k] = v`:
the first entry with the key is replaced in place, otherwise the pair is
appended (Python dicts keep insertion order). -/
def dictInsert {κ : Type} {α : Type} [DecidableEq κ] : List (κ × α) → κ → α → List (κ × α)
  | [], k, v => [(k, v)]
  | (k', v') :: rest, k, v =>
      if k' = k then (k, v) :: rest else (k', v') :: dictInsert rest k v

/-- `dict.get(k)` on a JSON object: `none` becomes JSON null (Python `None`). -/
def objGet (m : List (String × Json)) (k : String) : Json :=
  match lookupKey m k with
  | some v => v
  | none => Json.null

/-- The bytes travelling over UDP, classified by what `json.loads` would do
with them: either they are the UTF-8 JSON encoding of a value, or decoding
raises and `e` is the exception text.  (`json.dumps` is injective on the
`Json` type, so the encoding is kept as the value itself.) -/
inductive Wire where
  | json (j : Json) : Wire
  | malformed (e : String) : Wire

/-- `shared/protocol.py` `encode_message`: UTF-8 JSON of
`{"type": T, "data": D}` (here: the `Json` object with those two keys). -/
def encode_message (msg_type : String) (data : Json) : Wire :=
  Wire.json (Json.obj [("type", Json.str msg_type), ("data", data)])

/-- `shared/protocol.py` `decode_message`: parse the bytes, then return
`(message.get("type"), message.get("data"))`; on any exception return
`(None, {"error": str(e)})`.  A parse result that is not a JSON object makes
`message.get` raise `AttributeError`, which the same `except` catches. -/
def decode_message : Wire → Json × Json
  | Wire.json (Json.obj m) => (objGet m "type", objGet m "data")
  | Wire.json _ =>
      (Json.null, Json.obj [("error", Json.str "AttributeError: object has no attribute get")])
  | Wire.malformed e => (Json.null, Json.obj [("error", Json.str e)])

/-- One nameservice registry entry, `nameservice.py`:
`registry[wtype] = {"address": address, "last_seen": time.time()}`. -/
structure RegEntry where
  address : String
  last_seen : ℚ
deriving Repr, DecidableEq

/-- `nameservice.py`: `HEARTBEAT_TIMEOUT = 30  # seconds`. -/
def HEARTBEAT_TIMEOUT : ℚ := 30

/-- `worker.py` / `nameservice.py`: the fixed worker listening port 6000. -/
def WORKER_PORT : Nat := 6000

/-- The liveness test of the LOOKUP_WORKER and LIST_WORKERS branches:
`time.time() - entry["last_seen"] <= HEARTBEAT_TIMEOUT`. -/
def isLive (now : ℚ) (e : RegEntry) : Bool :=
  decide (now - e.last_seen ≤ HEARTBEAT_TIMEOUT)

/-- REGISTER_WORKER branch of `nameservice.handle_request`: the registered
address is built from the datagram source IP and the fixed port; the handler
reads only `content.get("type")`, so `payloadAddress` (an `address` field the
sender may have put in the payload) is never consulted. -/
def register_worker (registry : List (String × RegEntry)) (senderIp : String)
    (now : ℚ) (wtype : String) (_payloadAddress : Option String) :
    List (String × RegEntry) × Json :=
  let address := senderIp ++ ":" ++ toString WORKER_PORT
  (dictInsert registry wtype { address := address, last_seen := now },
   Json.obj [("message", Json.str ("Registered " ++ wtype ++ " at " ++ address))])

/-- LOOKUP_WORKER branch of `nameservice.handle_request`: reply with the
entry address when the entry exists and is live, otherwise with an error
(error text modelled without the quotation marks around the type name). -/
def lookup_worker_request (registry : List (String × RegEntry)) (wtype : String)
    (now : ℚ) : Json :=
  match lookupKey registry wtype with
  | some e =>
      if isLive now e then Json.obj [("address", Json.str e.address)]
      else Json.obj [("error", Json.str ("No active worker found for type " ++ wtype))]
  | none => Json.obj [("error", Json.str ("No active worker found for type " ++ wtype))]

/-- LIST_WORKERS branch of `nameservice.handle_request`: the
`{"type": ..., "address": ...}` pairs of the live entries. -/
def list_workers (registry : List (String × RegEntry)) (now : ℚ) :
    List (String × String) :=
  (registry.filter (fun p => isLive now p.2)).map (fun p => (p.1, p.2.address))

/-- `shared/task.py` dataclass `Task`, with the fields as the dispatcher
fills them (`result=None` becomes `Json.null`; timestamps are rationals). -/
structure Task where
  id : Nat
  type : String
  payload : Json
  result : Json
  status : String
  timestamp_created : ℚ
  timestamp_completed : ℚ
  assigned_worker : Option String
deriving Repr

/-- The dispatcher's `live_stats` dict (counters are Python ints, so they may
go negative; the two averages are the rounded rational means). -/
structure LiveStats where
  total_tasks : Int
  completed_tasks : Int
  open_tasks : Int
  avg_completion_time : ℚ
  avg_completion_by_worker : List (String × ℚ)
deriving Repr

/-- The dispatcher's module-level state: `task_queue` (which in Python holds
the very `Task` objects registered in `task_results`, so it is modelled by
their ids), `task_results` keyed by id, `live_stats`, `worker_busy`, and the
`task_id_counter`. -/
structure DispatcherState where
  task_queue : List Nat
  task_results : List (Nat × Task)
  live_stats : LiveStats
  worker_busy : List (String × Bool)
  task_id_counter : Nat
deriving Repr

/-- Round half to even, the documented behaviour of Python `round` (modelled
exactly on rationals; binary-float representation error is not modelled). -/
def roundHalfEven (x : ℚ) : ℤ :=
  let f := x.floor
  if x - f < 1 / 2 then f
  else if 1 / 2 < x - f then f + 1
  else if f % 2 = 0 then f else f + 1

/-- Python `round(x, 2)`. -/
def round2 (x : ℚ) : ℚ := (roundHalfEven (x * 100) : ℚ) / 100

/-- The `all_durations` list built in `handle_result_return`: completion minus
creation time of every task in `task_results` whose status is `done`. -/
def doneDurations (trs : List (Nat × Task)) : List ℚ :=
  trs.filterMap fun p =>
    if p.2.status = "done" then some (p.2.timestamp_completed - p.2.timestamp_created)
    else none

/-- Append a key if it is not present yet (Python dict key creation order). -/
def addKeyOnce (acc : List String) (k : String) : List String :=
  if k ∈ acc then acc else acc ++ [k]

/-- The keys of a Python dict built by iterating over a list of keys. -/
def orderedKeys (l : List String) : List String := l.foldl addKeyOnce []

/-- Durations of the done tasks of one task type. -/
def typeDurations (trs : List (Nat × Task)) (ty : String) : List ℚ :=
  trs.filterMap fun p =>
    if p.2.status = "done" ∧ p.2.type = ty then
      some (p.2.timestamp_completed - p.2.timestamp_created)
    else none

/-- The `avg_completion_by_worker` dict rebuilt in `handle_result_return`:
keyed by `t.type` (the loop variable is called worker but holds the type),
value the rounded mean duration of the done tasks of that type. -/
def avgByWorker (trs : List (Nat × Task)) : List (String × ℚ) :=
  (orderedKeys (trs.filterMap fun p =>
      if p.2.status = "done" then some p.2.type else none)).map
    fun ty =>
      let durs := typeDurations trs ty
      (ty, round2 (durs.sum / (durs.length : ℚ)))

/-- `dispatcher.lookup_worker`, over an oracle listing the outcome each
successive receive attempt on the nameservice socket would produce (`none`
stands for a timeout, a failed send, or a response carrying no address).
The code performs exactly one attempt: it sends once, waits once with a
2-second timeout, and returns that outcome; the oracle's tail — what further
attempts would have yielded — is never consulted. -/
def lookup_worker (attempts : List (Option String)) : Option String :=
  match attempts with
  | [] => none
  | a :: _ => a

/-- The receive timeout `sock.settimeout(2.0)` of `dispatcher.lookup_worker`,
in seconds. -/
def LOOKUP_TIMEOUT_SECONDS : ℚ := 2

/-- Modelled from the claim wording, for comparison with `lookup_worker`:
a lookup that would retry up to ten attempts and return the first address
obtained. -/
def lookup_worker_claimed (attempts : List (Option String)) : Option String :=
  ((attempts.take 10).filterMap id).head?

/-- Python truthiness of a JSON value (`if task.result:`). -/
def isTruthy : Json → Bool
  | Json.null => false
  | Json.bool b => b
  | Json.num q => !(q == 0)
  | Json.str s => !(s == "")
  | Json.arr l => !l.isEmpty
  | Json.obj m => !m.isEmpty

/-- `dispatcher.handle_get_result`: the RESPONSE payload for a GET_RESULT of
the given task id (`if task and task.result: ... elif task: ... else: ...`;
a `Task` object itself is always truthy). -/
def handle_get_result (trs : List (Nat × Task)) (task_id : Nat) : Json :=
  match lookupKey trs task_id with
  | some t =>
      if isTruthy t.result then Json.obj [("result", t.result)]
      else Json.obj [("error", Json.str "Result not ready")]
  | none => Json.obj [("error", Json.str "Task not found")]

/-- One iteration of the loop in `dispatcher.try_dispatch_tasks` for the task
with id `tid`: done tasks are dropped from the queue; otherwise the worker is
looked up, busy or unknown workers cause a skip, and a found idle worker gets
the task (`assigned_worker` set, worker marked busy, task dequeued).  The
UDP send is assumed to succeed; a send failure would only leave the task
queued. -/
def dispatchStep (lookup : String → Option String) (s : DispatcherState)
    (tid : Nat) : DispatcherState :=
  match lookupKey s.task_results tid with
  | none => s
  | some t =>
      if t.status = "done" then
        { s with task_queue := s.task_queue.erase tid }
      else
        match lookup t.type with
        | none => s
        | some addr =>
            if (lookupKey s.worker_busy addr).getD false then s
            else
              { s with
                task_results :=
                  dictInsert s.task_results tid { t with assigned_worker := some addr },
                worker_busy := dictInsert s.worker_busy addr true,
                task_queue := s.task_queue.erase tid }

/-- `dispatcher.try_dispatch_tasks`: iterate the dispatch step over a snapshot
of the queue (`for task in list(task_queue)`), threading the state.  `lookup`
is the nameservice oracle: the address `lookup_worker` would obtain for a
type during this pass. -/
def try_dispatch_tasks (lookup : String → Option String) (s : DispatcherState) :
    DispatcherState :=
  s.task_queue.foldl (dispatchStep lookup) s

/-- `dispatcher.handle_post_task`: allocate the next id, bump `open_tasks`
and `total_tasks`, enqueue and register a fresh pending task, run a dispatch
pass, and answer with the received-message. -/
def handle_post_task (lookup : String → Option String) (s : DispatcherState)
    (ttype : String) (payload : Json) (now : ℚ) : DispatcherState × Json :=
  let tid := s.task_id_counter
  let task : Task :=
    { id := tid, type := ttype, payload := payload, result := Json.null,
      status := "pending", timestamp_created := now, timestamp_completed := 0,
      assigned_worker := none }
  let s1 : DispatcherState :=
    { s with
      task_id_counter := tid + 1,
      live_stats :=
        { s.live_stats with
          open_tasks := s.live_stats.open_tasks + 1,
          total_tasks := s.live_stats.total_tasks + 1 },
      task_queue := s.task_queue ++ [tid],
      task_results := dictInsert s.task_results tid task }
  (try_dispatch_tasks lookup s1,
   Json.obj [("message", Json.str ("Task received, ID = " ++ toString tid))])

/-- `dispatcher.handle_result_return` up to (and including) the clearing of
the worker-busy flag, but before the trailing `try_dispatch_tasks()` call:
an unknown task id changes nothing and yields the error; a known id — in any
status, including an already done one — gets result, status `done` and a
fresh completion timestamp, is dequeued if still queued, bumps
`completed_tasks`, decrements `open_tasks`, recomputes both averages over
all done tasks, and finally its assigned worker (if any) is marked idle. -/
def handle_result_return (s : DispatcherState) (task_id : Nat) (result : Json)
    (now : ℚ) : DispatcherState × Json :=
  match lookupKey s.task_results task_id with
  | none => (s, Json.obj [("error", Json.str "Task ID not found")])
  | some t =>
      let t' : Task :=
        { t with result := result, status := "done", timestamp_completed := now }
      let trs' := dictInsert s.task_results task_id t'
      let durs := doneDurations trs'
      let stats' : LiveStats :=
        { s.live_stats with
          completed_tasks := s.live_stats.completed_tasks + 1,
          open_tasks := s.live_stats.open_tasks - 1,
          avg_completion_time :=
            if durs.isEmpty then s.live_stats.avg_completion_time
            else round2 (durs.sum / (durs.length : ℚ)),
          avg_completion_by_worker := avgByWorker trs' }
      let busy' :=
        match t'.assigned_worker with
        | some w => dictInsert s.worker_busy w false
        | none => s.worker_busy
      ({ s with
          task_results := trs',
          task_queue := s.task_queue.erase task_id,
          live_stats := stats',
          worker_busy := busy' },
       Json.obj [("message", Json.str "Result stored")])

/-- The whole RESULT_RETURN handler: the update above followed by the
trailing dispatch pass. -/
def handle_result_return_full (lookup : String → Option String)
    (s : DispatcherState) (task_id : Nat) (result : Json) (now : ℚ) :
    DispatcherState × Json :=
  ((try_dispatch_tasks lookup (handle_result_return s task_id result now).1),
   (handle_result_return s task_id result now).2)

/-- `worker.load_allowed_task_types`: the module stems found in the
`worker_types/` directory (hash.py, random_fact.py, reverse.py, sum.py,
upper.py, wait.py). -/
def ALLOWED_TASK_TYPES : List String :=
  ["hash", "random_fact", "reverse", "sum", "upper", "wait"]

/-- `worker.process_task`, parameterised over what the dynamically imported
handler modules do (`handlers ty payload` stands for `module.handle(payload)`;
`Except.error m` models a raised exception whose text is `m`).  Returns the
status the task ends in together with the result that `send_result` ships
back in the RESULT_RETURN message. -/
def process_task (handlers : String → Json → Except String Json)
    (ttype : String) (payload : Json) : String × Json :=
  if ttype ∈ ALLOWED_TASK_TYPES then
    match handlers ttype payload with
    | Except.ok v => ("done", v)
    | Except.error m => ("failed", Json.str ("Error processing task: " ++ m))
  else ("failed", Json.str ("Error processing task: Invalid task type: " ++ ttype))

/-- A single character digit value. -/
def charDigit? (c : Char) : Option ℕ :=
  if c = '0' then some 0
  else if c = '1' then some 1
  else if c = '2' then some 2
  else if c = '3' then some 3
  else if c = '4' then some 4
  else if c = '5' then some 5
  else if c = '6' then some 6
  else if c = '7' then some 7
  else if c = '8' then some 8
  else if c = '9' then some 9
  else none

/-- Decimal value of a digit run (`some 0` on the empty run; callers check
emptiness where Python would reject it). -/
def digitsVal? (cs : List Char) : Option ℕ :=
  cs.foldl
    (fun acc c =>
      match acc, charDigit? c with
      | some n, some d => some (10 * n + d)
      | _, _ => none)
    (some 0)

/-- Python `str.split(",")` on the character list: splits at every comma and
keeps empty segments. -/
def splitComma (cs : List Char) : List (List Char) :=
  cs.foldr
    (fun c acc =>
      match acc with
      | [] => [[c]]
      | g :: gs => if c = ',' then [] :: g :: gs else (c :: g) :: gs)
    [[]]

/-- Python `float(segment)` on the plain decimal literals this system
produces: optional surrounding whitespace, an optional sign, then digits
with an optional fractional part (exponent notation and the special float
names are not modelled). -/
def parseFloatChars? (cs : List Char) : Option ℚ :=
  let t0 := cs.dropWhile Char.isWhitespace
  let t := (t0.reverse.dropWhile Char.isWhitespace).reverse
  let (sgn, body) : ℚ × List Char :=
    match t with
    | '-' :: rest => (-1, rest)
    | '+' :: rest => (1, rest)
    | _ => (1, t)
  let intPart := body.takeWhile Char.isDigit
  let rest := body.drop intPart.length
  match rest with
  | [] =>
      if intPart.isEmpty then none
      else (digitsVal? intPart).map fun n => sgn * (n : ℚ)
  | '.' :: frac =>
      if frac.all Char.isDigit ∧ (intPart ≠ [] ∨ frac ≠ []) then
        match digitsVal? intPart, digitsVal? frac with
        | some n, some m =>
            some (sgn * ((n : ℚ) + (m : ℚ) / (10 : ℚ) ^ frac.length))
        | _, _ => none
      else none
  | _ => none

/-- Left-to-right traversal that fails at the first element the function
rejects (the Python list comprehension over `payload.split(",")`). -/
def mapOption {α β : Type} (f : α → Option β) : List α → Option (List β)
  | [] => some []
  | a :: as =>
      match f a, mapOption f as with
      | some b, some bs => some (b :: bs)
      | _, _ => none

/-- Python numeric test for summation: ints, floats and bools add onto the
integer start value 0 (`True` counts as 1); anything else raises TypeError. -/
def pyNumVal? : Json → Option ℚ
  | Json.num q => some q
  | Json.bool b => some (if b then 1 else 0)
  | _ => none

/-- `sum(payload)` over a JSON array: Python folds from the left starting at
0 and raises TypeError at the first non-numeric element. -/
def listSum? (l : List Json) : Option ℚ :=
  l.foldl
    (fun acc j =>
      match acc, pyNumVal? j with
      | some s, some q => some (s + q)
      | _, _ => none)
    (some 0)

/-- `worker_types/sum.py` `handle`.  `sum(payload)` succeeds on a list of
numbers/bools and on the two empty iterables (`sum("") = 0`, `sum({}) = 0`);
for a nonempty string the TypeError branch splits on commas and floats each
segment (a ValueError from `float` propagates); every remaining payload hits
TypeError and then the uncaught AttributeError from `payload.split` inside
the except handler.  Error texts are modelled without quotation marks. -/
def sumHandle : Json → Except String Json
  | Json.arr l =>
      match listSum? l with
      | some q => Except.ok (Json.num q)
      | none => Except.error "AttributeError: list object has no attribute split"
  | Json.str s =>
      if s = "" then Except.ok (Json.num 0)
      else
        match mapOption parseFloatChars? (splitComma s.toList) with
        | some qs => Except.ok (Json.num (qs.foldl (· + ·) 0))
        | none => Except.error "ValueError: could not convert string to float"
  | Json.obj m =>
      if m.isEmpty then Except.ok (Json.num 0)
      else Except.error "AttributeError: dict object has no attribute split"
  | Json.num _ => Except.error "AttributeError: float object has no attribute split"
  | Json.bool _ => Except.error "AttributeError: bool object has no attribute split"
  | Json.null => Except.error "AttributeError: NoneType object has no attribute split"

/-- A dispatcher state holding a single already completed task (id 1), with
statistics recording that one completion. -/
def doneTaskState : DispatcherState :=
  { task_queue := [],
    task_results :=
      [(1, { id := 1, type := "sum",
             payload := Json.arr [Json.num 1, Json.num 2, Json.num 3],
             result := Json.num 6, status := "done", timestamp_created := 0,
             timestamp_completed := 3, assigned_worker := none })],
    live_stats :=
      { total_tasks := 1, completed_tasks := 1, open_tasks := 0,
        avg_completion_time := 3, avg_completion_by_worker := [("sum", 3)] },
    worker_busy := [],
    task_id_counter := 2 }

/-- The dispatcher state at process start. -/
def emptyState : DispatcherState :=
  { task_queue := [], task_results := [],
    live_stats :=
      { total_tasks := 0, completed_tasks := 0, open_tasks := 0,
        avg_completion_time := 0, avg_completion_by_worker := [] },
    worker_busy := [], task_id_counter := 1 }

/-- A nameservice oracle that knows one idle sum worker. -/
def sumLookup : String → Option String :=
  fun ty => if ty = "sum" then some "10.0.0.5:6000" else none

/-- The state after a POST_TASK of a sum task into the empty dispatcher; the
post handler's dispatch pass hands task 1 to the sum worker at once. -/
def afterPost : DispatcherState :=
  (handle_post_task sumLookup emptyState "sum"
    (Json.arr [Json.num 1, Json.num 2, Json.num 3]) 0).1

/-- The state after the sum worker returns result 6 for task 1 at time 10. -/
def afterDone : DispatcherState :=
  (handle_result_return afterPost 1 (Json.num 6) 10).1

/-- A dispatcher state with task 1 still pending in the queue, as left by a
POST_TASK whose dispatch pass found no worker. -/
def queuedState : DispatcherState :=
  (handle_post_task (fun _ => none) emptyState "sum"
    (Json.arr [Json.num 1, Json.num 2, Json.num 3]) 0).1

end VSys

namespace VSys

theorem lookupKey_dictInsert {κ α : Type} [DecidableEq κ]
    (d : List (κ × α)) (k k' : κ) (v : α) :
    lookupKey (dictInsert d k v) k' = if k' = k then some v else lookupKey d k' := by
  induction d with
  | nil =>
      by_cases h : k' = k
      · simp [dictInsert, lookupKey, h]
      · have h2 : ¬k = k' := fun hh => h hh.symm
        simp [dictInsert, lookupKey, h, h2]
  | cons p rest ih =>
      obtain ⟨k₀, v₀⟩ := p
      by_cases h₀ : k₀ = k
      · subst h₀
        by_cases h' : k' = k₀
        · subst h'; simp [dictInsert, lookupKey]
        · have h2 : ¬k₀ = k' := fun hh => h' hh.symm
          simp [dictInsert, lookupKey, h', h2]
      · by_cases h' : k₀ = k'
        · subst h'
          simp [dictInsert, lookupKey, h₀]
        · simp [dictInsert, lookupKey, h₀, h', ih]

theorem keys_dictInsert {κ α : Type} [DecidableEq κ]
    (d : List (κ × α)) (k : κ) (v : α) :
    (dictInsert d k v).map Prod.fst =
      if k ∈ d.map Prod.fst then d.map Prod.fst else d.map Prod.fst ++ [k] := by
  induction d with
  | nil => simp [dictInsert]
  | cons p rest ih =>
      obtain ⟨k₀, v₀⟩ := p
      by_cases h₀ : k₀ = k
      · subst h₀; simp [dictInsert]
      · by_cases hk : k ∈ rest.map Prod.fst
        · simp [dictInsert, h₀, ih, hk, Ne.symm h₀]
        · simp [dictInsert, h₀, ih, hk, Ne.symm h₀]

theorem keysNodup_dictInsert {κ α : Type} [DecidableEq κ]
    (d : List (κ × α)) (k : κ) (v : α) (h : (d.map Prod.fst).Nodup) :
    ((dictInsert d k v).map Prod.fst).Nodup := by
  rw [keys_dictInsert]
  split_ifs with hk
  · exact h
  · simp [List.nodup_append, h, hk]

/-- C5: encode/decode round trip on well-formed messages, and the error shape
on malformed bytes. -/
theorem decode_encode_roundtrip (T : String) (D : Json) (e : String) :
    decode_message (encode_message T D) = (Json.str T, D) ∧
    decode_message (Wire.malformed e) = (Json.null, Json.obj [("error", Json.str e)]) := by
  refine ⟨?_, rfl⟩
  simp [encode_message, decode_message, objGet, lookupKey]

/-- C3: a registry entry is live iff `now − last_seen ≤ 30`; LOOKUP_WORKER
replies with the address exactly for a live entry and with an error for a
stale or missing one, and LIST_WORKERS lists exactly the live entries. -/
theorem liveness_governs_lookup_and_list
    (registry : List (String × RegEntry)) (wtype : String) (now : ℚ)
    (e : RegEntry) (a ty : String) :
    (isLive now e = true ↔ now - e.last_seen ≤ 30) ∧
    (lookup_worker_request registry wtype now = Json.obj [("address", Json.str a)] ↔
      ∃ e', lookupKey registry wtype = some e' ∧ isLive now e' = true ∧ e'.address = a) ∧
    (∀ e', lookupKey registry wtype = some e' → isLive now e' = false →
      lookup_worker_request registry wtype now =
        Json.obj [("error", Json.str ("No active worker found for type " ++ wtype))]) ∧
    (lookupKey registry wtype = none →
      lookup_worker_request registry wtype now =
        Json.obj [("error", Json.str ("No active worker found for type " ++ wtype))]) ∧
    ((ty, a) ∈ list_workers registry now ↔
      ∃ e', (ty, e') ∈ registry ∧ isLive now e' = true ∧ e'.address = a) := by
  refine ⟨by simp [isLive, HEARTBEAT_TIMEOUT], ?_, ?_, ?_, ?_⟩
  · cases h : lookupKey registry wtype with
    | none => simp [lookup_worker_request, h]
    | some e' =>
        by_cases hl : isLive now e'
        · simp [lookup_worker_request, h, hl]
        · simp [lookup_worker_request, h, hl]
  · intro e' he hl
    simp [lookup_worker_request, he, hl]
  · intro h
    simp [lookup_worker_request, h]
  · constructor
    · intro hmem
      simp only [list_workers, List.mem_map, List.mem_filter] at hmem
      obtain ⟨⟨ty', e'⟩, ⟨hin, hl⟩, heq⟩ := hmem
      obtain ⟨h1, h2⟩ := Prod.mk.injEq .. ▸ heq
      exact ⟨e', h1 ▸ hin, hl, h2⟩
    · rintro ⟨e', hin, hl, ha⟩
      simp only [list_workers, List.mem_map, List.mem_filter]
      exact ⟨(ty, e'), ⟨hin, hl⟩, by simp [ha]⟩

/-- Witness for C3 at a concrete registry: a stale entry (no heartbeat for
40 s) yields a lookup error, a live one yields its address. -/
theorem liveness_governs_lookup_and_list_witness :
    lookup_worker_request
        [("sum", ⟨"1.2.3.4:6000", 20⟩), ("upper", ⟨"9.9.9.9:6000", 0⟩)] "upper" 40 =
      Json.obj [("error", Json.str "No active worker found for type upper")] ∧
    lookup_worker_request
        [("sum", ⟨"1.2.3.4:6000", 20⟩), ("upper", ⟨"9.9.9.9:6000", 0⟩)] "sum" 40 =
      Json.obj [("address", Json.str "1.2.3.4:6000")] := by
  constructor
  · exact (liveness_governs_lookup_and_list
      [("sum", ⟨"1.2.3.4:6000", 20⟩), ("upper", ⟨"9.9.9.9:6000", 0⟩)] "upper" 40
      ⟨"", 0⟩ "" "").2.2.1 ⟨"9.9.9.9:6000", 0⟩ (by decide)
      (by norm_num [isLive, HEARTBEAT_TIMEOUT])
  · exact (liveness_governs_lookup_and_list
      [("sum", ⟨"1.2.3.4:6000", 20⟩), ("upper", ⟨"9.9.9.9:6000", 0⟩)] "sum" 40
      ⟨"", 0⟩ "1.2.3.4:6000" "").2.1.mpr ⟨⟨"1.2.3.4:6000", 20⟩, by decide,
        by norm_num [isLive, HEARTBEAT_TIMEOUT], rfl⟩

/-- C4: REGISTER_WORKER stores `sender_ip:6000` with `last_seen = now` under
the type, ignores any payload-supplied address, and leaves at most one entry
per type (key uniqueness is preserved). -/
theorem register_worker_replaces_with_source_address
    (registry : List (String × RegEntry)) (ip : String) (now : ℚ) (wtype : String)
    (a₁ a₂ : Option String) :
    register_worker registry ip now wtype a₁ = register_worker registry ip now wtype a₂ ∧
    lookupKey (register_worker registry ip now wtype a₁).1 wtype =
      some { address := ip ++ ":" ++ toString WORKER_PORT, last_seen := now } ∧
    ((registry.map Prod.fst).Nodup →
      ((register_worker registry ip now wtype a₁).1.map Prod.fst).Nodup) := by
  refine ⟨rfl, ?_, ?_⟩
  · simp [register_worker, lookupKey_dictInsert]
  · intro h
    exact keysNodup_dictInsert _ _ _ h

/-- Witness for C4: re-registering `sum` from IP 10.0.0.7 with a bogus payload
address stores `10.0.0.7:6000` and keeps a single `sum` entry. -/
theorem register_worker_replaces_with_source_address_witness :
    lookupKey (register_worker [("sum", ⟨"1.1.1.1:6000", 0⟩)] "10.0.0.7" 5 "sum"
        (some "9.9.9.9:1")).1 "sum" =
      some { address := "10.0.0.7:6000", last_seen := 5 } ∧
    ((register_worker [("sum", ⟨"1.1.1.1:6000", 0⟩)] "10.0.0.7" 5 "sum"
        (some "9.9.9.9:1")).1.map Prod.fst).Nodup := by
  have h := register_worker_replaces_with_source_address
    [("sum", ⟨"1.1.1.1:6000", (0 : ℚ)⟩)] "10.0.0.7" 5 "sum" (some "9.9.9.9:1") none
  exact ⟨h.2.1, h.2.2 (by decide)⟩

theorem dispatchStep_live_stats (lookup : String → Option String)
    (s : DispatcherState) (tid : Nat) :
    (dispatchStep lookup s tid).live_stats = s.live_stats := by
  unfold dispatchStep
  repeat' split
  all_goals rfl

theorem foldl_dispatchStep_live_stats (lookup : String → Option String) :
    ∀ (q : List Nat) (s : DispatcherState),
      (q.foldl (dispatchStep lookup) s).live_stats = s.live_stats := by
  intro q
  induction q with
  | nil => intro s; rfl
  | cons t ts ih =>
      intro s
      rw [List.foldl_cons, ih, dispatchStep_live_stats]

@[simp]
theorem try_dispatch_live_stats (lookup : String → Option String)
    (s : DispatcherState) :
    (try_dispatch_tasks lookup s).live_stats = s.live_stats :=
  foldl_dispatchStep_live_stats lookup s.task_queue s

/-- C1 (amended): a RESULT_RETURN whose task id is unknown yields
`{error: "Task ID not found"}` and leaves the state untouched (and the
trailing dispatch pass never changes the statistics); but every
RESULT_RETURN for a known id — including a task already done — bumps the
statistics again: `completed_tasks` goes up by one and `open_tasks` down by
one, so a duplicate RESULT_RETURN is not a no-op on the statistics. -/
theorem result_return_statistics_update (lookup : String → Option String)
    (s : DispatcherState) (task_id : Nat) (result : Json) (now : ℚ) :
    (lookupKey s.task_results task_id = none →
      handle_result_return s task_id result now =
        (s, Json.obj [("error", Json.str "Task ID not found")]) ∧
      (handle_result_return_full lookup s task_id result now).1.live_stats =
        s.live_stats) ∧
    (∀ t, lookupKey s.task_results task_id = some t →
      (handle_result_return_full lookup s task_id result now).1.live_stats.completed_tasks =
        s.live_stats.completed_tasks + 1 ∧
      (handle_result_return_full lookup s task_id result now).1.live_stats.open_tasks =
        s.live_stats.open_tasks - 1) := by
  constructor
  · intro h
    constructor
    · simp [handle_result_return, h]
    · simp [handle_result_return_full, handle_result_return, h]
  · intro t ht
    constructor
    · simp [handle_result_return_full, handle_result_return, ht]
    · simp [handle_result_return_full, handle_result_return, ht]

/-- Witness for C1 (amended), on `doneTaskState`: an unknown id 99 answers
the error and changes nothing, and a RESULT_RETURN for the already done task
1 raises `completed_tasks` from 1 to 2. -/
theorem result_return_statistics_update_witness :
    handle_result_return doneTaskState 99 Json.null 9 =
      (doneTaskState, Json.obj [("error", Json.str "Task ID not found")]) ∧
    (handle_result_return_full (fun _ => none) doneTaskState 1 Json.null 9).1.live_stats.completed_tasks = 2 := by
  have h₉ := result_return_statistics_update (fun _ => none) doneTaskState 99 Json.null 9
  have h₁ := result_return_statistics_update (fun _ => none) doneTaskState 1 Json.null 9
  refine ⟨(h₉.1 rfl).1, ?_⟩
  have hc := (h₁.2 _ rfl).1
  rw [hc]
  rfl

/-- Counterexample to C1 as stated: task 1 of `doneTaskState` is already in
status done with the statistics accounting for its completion, yet a second
RESULT_RETURN for it updates the statistics again — `completed_tasks`
becomes 2 though only one task exists, and `open_tasks` drops to −1. -/
theorem result_return_duplicate_updates_stats :
    (handle_result_return_full (fun _ => none) doneTaskState 1 (Json.num 6) 9).1.live_stats.completed_tasks = 2 ∧
    (handle_result_return_full (fun _ => none) doneTaskState 1 (Json.num 6) 9).1.live_stats.open_tasks = -1 := by
  exact ⟨rfl, rfl⟩

/-- C2 (amended): the dispatcher's `lookup_worker` performs a single receive
attempt — its value is the first oracle entry, every later attempt outcome
being irrelevant — and its receive timeout is 2 seconds; on a timeout or an
address-less response it returns none without any retry or wait. -/
theorem lookup_worker_single_attempt (attempts : List (Option String)) :
    lookup_worker attempts = attempts.head?.join ∧ LOOKUP_TIMEOUT_SECONDS = 2 := by
  refine ⟨?_, rfl⟩
  cases attempts <;> rfl

/-- Counterexample to C2 as stated: with an oracle whose first attempt fails
and whose second attempt would return the worker address, the code reports
the worker unavailable — it never makes a second attempt, while the claimed
ten-retry lookup would succeed — and the per-attempt timeout is 2 s, not 1 s. -/
theorem lookup_worker_does_not_retry :
    lookup_worker [none, some "10.0.0.5:6000"] = none ∧
    lookup_worker_claimed [none, some "10.0.0.5:6000"] = some "10.0.0.5:6000" ∧
    LOOKUP_TIMEOUT_SECONDS ≠ 1 := by
  refine ⟨rfl, rfl, ?_⟩
  norm_num [LOOKUP_TIMEOUT_SECONDS]

/-- C6: GET_RESULT answers with exactly one of three responses determined by
the task table: the stored result when the task exists and its result is
present and non-empty (Python-truthy), Result not ready when the task
exists otherwise, and Task not found for an unknown id. -/
theorem get_result_trichotomy (trs : List (Nat × Task)) (task_id : Nat) :
    (∀ t, lookupKey trs task_id = some t → isTruthy t.result = true →
      handle_get_result trs task_id = Json.obj [("result", t.result)]) ∧
    (∀ t, lookupKey trs task_id = some t → isTruthy t.result = false →
      handle_get_result trs task_id = Json.obj [("error", Json.str "Result not ready")]) ∧
    (lookupKey trs task_id = none →
      handle_get_result trs task_id = Json.obj [("error", Json.str "Task not found")]) := by
  refine ⟨?_, ?_, ?_⟩
  · intro t ht htr
    simp [handle_get_result, ht, htr]
  · intro t ht htr
    simp [handle_get_result, ht, htr]
  · intro h
    simp [handle_get_result, h]

/-- Witness for C6: the done task answers its result, the freshly posted one
answers not ready, an unknown id answers not found. -/
theorem get_result_trichotomy_witness :
    handle_get_result doneTaskState.task_results 1 = Json.obj [("result", Json.num 6)] ∧
    handle_get_result afterPost.task_results 1 =
      Json.obj [("error", Json.str "Result not ready")] ∧
    handle_get_result doneTaskState.task_results 5 =
      Json.obj [("error", Json.str "Task not found")] := by
  exact ⟨(get_result_trichotomy doneTaskState.task_results 1).1 _ rfl (by decide),
         (get_result_trichotomy afterPost.task_results 1).2.1 _ rfl (by decide),
         (get_result_trichotomy doneTaskState.task_results 5).2.2 rfl⟩

/-- C7 (amended): a dispatch pass sets `assigned_worker` on the task it hands
to an idle worker, but completion does not unset it: `handle_result_return`
leaves every task's `assigned_worker` unchanged — the completed task keeps
the worker's address — and instead marks that worker idle in `worker_busy`. -/
theorem assigned_worker_persists_after_completion
    (lookup : String → Option String) (s : DispatcherState) (task_id tid : Nat)
    (result : Json) (now : ℚ) :
    (∀ t addr, lookupKey s.task_results tid = some t → t.status ≠ "done" →
      lookup t.type = some addr →
      (lookupKey s.worker_busy addr).getD false = false →
      (lookupKey (dispatchStep lookup s tid).task_results tid).map Task.assigned_worker =
        some (some addr)) ∧
    ((lookupKey (handle_result_return s task_id result now).1.task_results tid).map
        Task.assigned_worker =
      (lookupKey s.task_results tid).map Task.assigned_worker) ∧
    (∀ t w, lookupKey s.task_results task_id = some t → t.assigned_worker = some w →
      lookupKey (handle_result_return s task_id result now).1.worker_busy w = some false) := by
  refine ⟨?_, ?_, ?_⟩
  · intro t addr ht hst hl hb
    simp [dispatchStep, ht, hst, hl, hb, lookupKey_dictInsert]
  · cases h : lookupKey s.task_results task_id with
    | none => simp [handle_result_return, h]
    | some t =>
        by_cases he : tid = task_id
        · subst he
          simp [handle_result_return, h, lookupKey_dictInsert]
        · simp [handle_result_return, h, lookupKey_dictInsert, he]
  · intro t w ht hw
    simp [handle_result_return, ht, hw, lookupKey_dictInsert]

/-- Witness for C7 (amended): dispatching the queued task assigns the sum
worker; completing task 1 keeps its assigned worker and frees the worker. -/
theorem assigned_worker_persists_after_completion_witness :
    (lookupKey (dispatchStep sumLookup queuedState 1).task_results 1).map
        Task.assigned_worker = some (some "10.0.0.5:6000") ∧
    (lookupKey afterDone.task_results 1).map Task.assigned_worker =
      (lookupKey afterPost.task_results 1).map Task.assigned_worker ∧
    lookupKey afterDone.worker_busy "10.0.0.5:6000" = some false := by
  refine ⟨?_, ?_, ?_⟩
  · exact (assigned_worker_persists_after_completion sumLookup queuedState 1 1
      Json.null 0).1 _ "10.0.0.5:6000" rfl (by decide) rfl rfl
  · exact (assigned_worker_persists_after_completion sumLookup afterPost 1 1
      (Json.num 6) 10).2.1
  · exact (assigned_worker_persists_after_completion sumLookup afterPost 1 1
      (Json.num 6) 10).2.2 _ "10.0.0.5:6000" rfl rfl

/-- Counterexample to C7 as stated: after the RESULT_RETURN that completes
task 1, the task is in status done yet `assigned_worker` still holds the
worker's address instead of being unset. -/
theorem assigned_worker_not_cleared :
    (lookupKey afterDone.task_results 1).map (fun t => (t.status, t.assigned_worker)) =
      some ("done", some "10.0.0.5:6000") := rfl

/-- C8: a TASK whose type has no local handler module ends failed with the
invalid-type error text; a TASK whose handler raises ends failed with
`Error processing task: <message>`; a TASK whose handler succeeds ends done
with the handler's value as the result sent back. -/
theorem process_task_outcomes (handlers : String → Json → Except String Json)
    (ttype : String) (payload : Json) :
    (ttype ∉ ALLOWED_TASK_TYPES →
      process_task handlers ttype payload =
        ("failed", Json.str ("Error processing task: Invalid task type: " ++ ttype))) ∧
    (∀ m, ttype ∈ ALLOWED_TASK_TYPES → handlers ttype payload = Except.error m →
      process_task handlers ttype payload =
        ("failed", Json.str ("Error processing task: " ++ m))) ∧
    (∀ v, ttype ∈ ALLOWED_TASK_TYPES → handlers ttype payload = Except.ok v →
      process_task handlers ttype payload = ("done", v)) := by
  refine ⟨?_, ?_, ?_⟩
  · intro h
    simp [process_task, h]
  · intro m hmem herr
    simp [process_task, hmem, herr]
  · intro v hmem hok
    simp [process_task, hmem, hok]

/-- Witness for C8 with the real sum handler: success, unknown type, and a
raising handler (sum of null). -/
theorem process_task_outcomes_witness :
    process_task (fun _ p => sumHandle p) "sum"
        (Json.arr [Json.num 1, Json.num 2, Json.num 3]) = ("done", Json.num 6) ∧
    process_task (fun _ p => sumHandle p) "fib" Json.null =
      ("failed", Json.str "Error processing task: Invalid task type: fib") ∧
    process_task (fun _ p => sumHandle p) "sum" Json.null =
      ("failed",
       Json.str "Error processing task: AttributeError: NoneType object has no attribute split") := by
  refine ⟨(process_task_outcomes (fun _ p => sumHandle p) "sum"
      (Json.arr [Json.num 1, Json.num 2, Json.num 3])).2.2 (Json.num 6) (by decide) ?_,
    (process_task_outcomes (fun _ p => sumHandle p) "fib" Json.null).1 (by decide),
    (process_task_outcomes (fun _ p => sumHandle p) "sum" Json.null).2.1 _ (by decide) rfl⟩
  norm_num [sumHandle, listSum?, pyNumVal?]

theorem listSum_map_num (l : List ℚ) : listSum? (l.map Json.num) = some l.sum := by
  have aux : ∀ (l' : List ℚ) (a : ℚ),
      (l'.map Json.num).foldl
        (fun acc j =>
          match acc, pyNumVal? j with
          | some s, some q => some (s + q)
          | _, _ => none)
        (some a) = some (a + l'.sum) := by
    intro l'
    induction l' with
    | nil => intro a; simp
    | cons q rest ih =>
        intro a
        rw [List.map_cons, List.foldl_cons]
        show List.foldl
            (fun acc j =>
              match acc, pyNumVal? j with
              | some s, some q => some (s + q)
              | _, _ => none)
            (some (a + q)) (rest.map Json.num) = some (a + (q :: rest).sum)
        rw [ih, List.sum_cons, add_assoc]
  simpa [listSum?] using aux l 0

/-- C9 (amended): the sum handler adds up a list of numbers and a comma-
separated string of parsable numbers; the empty string and the empty object,
being empty Python iterables, also sum to 0 instead of raising; every
remaining payload (null, booleans, bare numbers, nonempty objects, lists
with a non-numeric element, nonempty strings with an unparsable segment)
yields an error. -/
theorem sum_handle_behaviour (l : List ℚ) (jl : List Json) (s : String)
    (qs : List ℚ) (b : Bool) (q : ℚ) (k : String) (v : Json)
    (rest : List (String × Json)) :
    (sumHandle (Json.arr (l.map Json.num)) = Except.ok (Json.num l.sum)) ∧
    (s ≠ "" → mapOption parseFloatChars? (splitComma s.toList) = some qs →
      sumHandle (Json.str s) = Except.ok (Json.num (qs.foldl (· + ·) 0))) ∧
    (sumHandle (Json.str "") = Except.ok (Json.num 0) ∧
     sumHandle (Json.obj []) = Except.ok (Json.num 0)) ∧
    ((∃ m, sumHandle Json.null = Except.error m) ∧
     (∃ m, sumHandle (Json.bool b) = Except.error m) ∧
     (∃ m, sumHandle (Json.num q) = Except.error m) ∧
     (∃ m, sumHandle (Json.obj ((k, v) :: rest)) = Except.error m) ∧
     (listSum? jl = none → ∃ m, sumHandle (Json.arr jl) = Except.error m) ∧
     (s ≠ "" → mapOption parseFloatChars? (splitComma s.toList) = none →
       ∃ m, sumHandle (Json.str s) = Except.error m)) := by
  refine ⟨?_, ?_, ⟨rfl, rfl⟩, ⟨_, rfl⟩, ⟨_, rfl⟩, ⟨_, rfl⟩, ⟨_, rfl⟩, ?_, ?_⟩
  · simp [sumHandle, listSum_map_num]
  · intro hne hq
    have hq' : mapOption parseFloatChars? (splitComma s.data) = some qs := hq
    simp [sumHandle, hne, hq']
  · intro h
    exact ⟨"AttributeError: list object has no attribute split",
      by simp [sumHandle, h]⟩
  · intro hne h
    have h' : mapOption parseFloatChars? (splitComma s.data) = none := h
    exact ⟨"ValueError: could not convert string to float",
      by simp [sumHandle, hne, h']⟩

/-- Witness for C9 (amended): the two documented examples of the spec —
`[1, 2, 3] ↦ 6` and `"1,2,3" ↦ 6.0` — and an error on a list holding a
string. -/
theorem sum_handle_behaviour_witness :
    sumHandle (Json.arr [Json.num 1, Json.num 2, Json.num 3]) = Except.ok (Json.num 6) ∧
    sumHandle (Json.str "1,2,3") = Except.ok (Json.num 6) ∧
    (∃ m, sumHandle (Json.arr [Json.str "x"]) = Except.error m) := by
  obtain ⟨hA, hB, -, -, -, -, -, hE, -⟩ :=
    sum_handle_behaviour [1, 2, 3] [Json.str "x"] "1,2,3" [1, 2, 3] true 0 "a"
      Json.null []
  refine ⟨?_, ?_, hE rfl⟩
  · norm_num at hA
    exact hA
  · have hq : mapOption parseFloatChars? (splitComma "1,2,3".toList) =
        some [1, 2, 3] := by
      norm_num +decide [splitComma, parseFloatChars?, digitsVal?, charDigit?, mapOption]
    have := hB (by decide) hq
    norm_num at this
    exact this

/-- Counterexample to C9 as stated: the empty JSON object and the empty
string are payload shapes that are neither a list of numbers nor a comma-
separated numeric string, yet the handler returns 0 for both — Python `sum`
iterates their zero elements — instead of raising an invalid-payload error. -/
theorem sum_handle_not_error_on_empty_iterables :
    sumHandle (Json.obj []) = Except.ok (Json.num 0) ∧
    sumHandle (Json.str "") = Except.ok (Json.num 0) :=
  ⟨rfl, rfl⟩

/-- C10: a falsy stored result (the number 0, the empty string, the empty
list, …) makes GET_RESULT answer Result not ready even after RESULT_RETURN
has stored it and marked the task done, and such a result is never returned
to the client. -/
theorem falsy_result_never_returned
    (s : DispatcherState) (task_id : Nat) (t : Task) (result : Json) (now : ℚ)
    (ht : lookupKey s.task_results task_id = some t)
    (hf : isTruthy result = false) :
    (∀ t', lookupKey (handle_result_return s task_id result now).1.task_results task_id =
        some t' → t'.status = "done" ∧ t'.result = result) ∧
    handle_get_result (handle_result_return s task_id result now).1.task_results task_id =
      Json.obj [("error", Json.str "Result not ready")] ∧
    (∀ r, handle_get_result (handle_result_return s task_id result now).1.task_results task_id ≠
      Json.obj [("result", r)]) := by
  have hres : (handle_result_return s task_id result now).1.task_results =
      dictInsert s.task_results task_id
        { t with result := result, status := "done", timestamp_completed := now } := by
    simp [handle_result_return, ht]
  refine ⟨?_, ?_, ?_⟩
  · intro t' h
    rw [hres, lookupKey_dictInsert] at h
    simp at h
    rcases h with rfl
    exact ⟨rfl, rfl⟩
  · rw [hres]
    simp [handle_get_result, lookupKey_dictInsert, hf]
  · intro r
    rw [hres]
    simp [handle_get_result, lookupKey_dictInsert, hf]

/-- Witness for C10: returning the result 0 for pending task 1 marks it done,
yet GET_RESULT answers Result not ready. -/
theorem falsy_result_never_returned_witness :
    handle_get_result (handle_result_return afterPost 1 (Json.num 0) 10).1.task_results 1 =
      Json.obj [("error", Json.str "Result not ready")] := by
  exact (falsy_result_never_returned afterPost 1 _ (Json.num 0) 10 rfl (by decide)).2.1

end VSys
